import Mathlib

/-!
Verification of the link-queue lifecycle and scheduled-broadcast loop of the
telegram affiliate bot (src/bot.py, with the add-link variant of
src/bot_api.py).  The in-memory link queue is a deque of JSON objects; every
mutating operation rewrites the persisted document in full.  External
collaborators (the Telegram transport, the product resolver and the raw
JSON file primitives) are modelled as oracle parameters.
-/

/-- One pending promotional item, as stored in the queue: a JSON object with
the four mandatory keys written by handle_add_link and the three optional
display keys added later by handle_update_link. -/
structure LinkRecord where
  title : String
  product_id : String
  url : String
  affiliate_link : String
  price : Option String := none
  original_price : Option String := none
  discount : Option String := none
deriving DecidableEq, Repr

instance : Inhabited LinkRecord :=
  ⟨{ title := "", product_id := "", url := "", affiliate_link := "" }⟩

/-- JSON values as far as the persisted documents need them: strings, arrays
and objects (json.dump / json.load preserve these structurally). -/
inductive Json where
  | str : String → Json
  | arr : List Json → Json
  | obj : List (String × Json) → Json
deriving Repr

/-- Encoding of an optional display field: a present field contributes one
key, an absent field contributes nothing (the Python dict simply lacks the
key until handle_update_link adds it). -/
def optEntry (key : String) : Option String → List (String × Json)
  | none => []
  | some v => [(key, Json.str v)]

/-- A LinkRecord as the JSON object json.dump writes for it. -/
def encodeRecord (r : LinkRecord) : Json :=
  Json.obj
    ([("title", Json.str r.title), ("product_id", Json.str r.product_id),
      ("url", Json.str r.url), ("affiliate_link", Json.str r.affiliate_link)]
      ++ optEntry "price" r.price
      ++ optEntry "original_price" r.original_price
      ++ optEntry "discount" r.discount)

/-- First-match string lookup in a JSON object (Python dicts have unique
keys, so first match is the only match). -/
def getStr? (kvs : List (String × Json)) (key : String) : Option String :=
  match kvs with
  | [] => none
  | (k, v) :: rest =>
    if k = key then
      match v with
      | Json.str s => some s
      | _ => none
    else getStr? rest key

/-- Reading one queue entry back from its JSON object. -/
def decodeRecord : Json → Option LinkRecord
  | Json.obj kvs => do
    let t ← getStr? kvs "title"
    let pid ← getStr? kvs "product_id"
    let u ← getStr? kvs "url"
    let a ← getStr? kvs "affiliate_link"
    some { title := t, product_id := pid, url := u, affiliate_link := a,
           price := getStr? kvs "price",
           original_price := getStr? kvs "original_price",
           discount := getStr? kvs "discount" }
  | _ => none

/-- Decoding a whole persisted array; any bad entry fails the load. -/
def decodeAll : List Json → Option (List LinkRecord)
  | [] => some []
  | x :: xs => do
    let r ← decodeRecord x
    let rest ← decodeAll xs
    some (r :: rest)

/-- The document save_links writes: the JSON array of the queue in order. -/
def saveLinksDoc (q : List LinkRecord) : Json :=
  Json.arr (q.map encodeRecord)

/-- load_links: read the persisted document back into a queue; any failure
yields the empty queue (the except branch returns deque()). -/
def load_links (doc : Json) : List LinkRecord :=
  match doc with
  | Json.arr xs => (decodeAll xs).getD []
  | _ => []

/-- The process state the handlers share: the in-memory link_queue deque and
the current content of the LINKS_FILE document. -/
structure BotState where
  queue : List LinkRecord
  disk : Json

/-- save_links: rewrite the whole persisted document from the in-memory
queue. -/
def save_links (st : BotState) : BotState :=
  { st with disk := saveLinksDoc st.queue }

/-- State at startup with no persisted file: load_links returns deque(). -/
def initialState : BotState :=
  { queue := [], disk := saveLinksDoc [] }

/-- The enqueue fragment shared by both add handlers:
link_queue.append(new_link) followed by save_links(). -/
def enqueue (r : LinkRecord) (st : BotState) : BotState :=
  save_links { st with queue := st.queue ++ [r] }

theorem decode_encode (r : LinkRecord) : decodeRecord (encodeRecord r) = some r := by
  obtain ⟨t, pid, u, a, p, o, d⟩ := r
  cases p <;> cases o <;> cases d <;> rfl

theorem decodeAll_encode (q : List LinkRecord) :
    decodeAll (q.map encodeRecord) = some q := by
  induction q with
  | nil => rfl
  | cons r rest ih => simp [decodeAll, decode_encode, ih]

theorem load_links_save (q : List LinkRecord) :
    load_links (saveLinksDoc q) = q := by
  simp [load_links, saveLinksDoc, decodeAll_encode]

/-- Outcome of send_real_deal_to_chat: nothing in the queue (warning logged,
nothing sent), the head delivered, or the head consumed but the transport
raised (caught and logged). -/
inductive SendResult where
  | queueEmpty : SendResult
  | sent : LinkRecord → SendResult
  | sendFailed : LinkRecord → SendResult
deriving DecidableEq, Repr

/-- send_real_deal_to_chat of src/bot.py (identical to send_deal_to_chat of
src/bot_api.py): if the queue is empty, log and return; otherwise popleft,
save_links, then hand the message to the transport.  The oracle delivers
says whether bot.send_message succeeds for a given chat id; a transport
failure is caught after the pop and save have already happened. -/
def send_real_deal_to_chat (delivers : Int → Bool) (chat_id : Int)
    (st : BotState) : SendResult × BotState :=
  match st.queue with
  | [] => (SendResult.queueEmpty, st)
  | deal :: rest =>
    let st1 := save_links { st with queue := rest }
    if delivers chat_id then (SendResult.sent deal, st1)
    else (SendResult.sendFailed deal, st1)

/-- The queue-manager fragment of send_real_deal_to_chat on its own (the
spec calls it dequeue_front): empty queue is the Empty failure and changes
nothing; otherwise popleft and save_links. -/
def dequeue_front (st : BotState) : Option LinkRecord × BotState :=
  match st.queue with
  | [] => (none, st)
  | deal :: rest => (some deal, save_links { st with queue := rest })

/-- send_real_deals_to_all: one broadcast pass over the chat registry in
order, sending to each chat in turn and threading the queue state. -/
def send_real_deals_to_all (delivers : Int → Bool)
    (chats : List (Int × String)) (st : BotState) :
    List (Int × String × SendResult) × BotState :=
  match chats with
  | [] => ([], st)
  | (chat_id, chat_title) :: rest =>
    let p := send_real_deal_to_chat delivers chat_id st
    let q := send_real_deals_to_all delivers rest p.2
    ((chat_id, chat_title, p.1) :: q.1, q.2)

/-- Outcome of handle_publish_command. -/
inductive PublishOutcome where
  | broadcastAll : List (Int × String × SendResult) → PublishOutcome
  | noActiveChats : PublishOutcome
  | singleChat : SendResult → PublishOutcome
deriving DecidableEq, Repr

/-- handle_publish_command: in a private chat run a full pass over the
stored registry (complaining when it is empty); in any other chat type send
one deal to the invoking chat only. -/
def handle_publish_command (delivers : Int → Bool) (chat_type : String)
    (chat_id : Int) (chats : List (Int × String)) (st : BotState) :
    PublishOutcome × BotState :=
  if chat_type = "private" then
    match chats with
    | [] => (PublishOutcome.noActiveChats, st)
    | _ :: _ =>
      let p := send_real_deals_to_all delivers chats st
      (PublishOutcome.broadcastAll p.1, p.2)
  else
    let p := send_real_deal_to_chat delivers chat_id st
    (PublishOutcome.singleChat p.1, p.2)

/-- Result of handle_add_link in src/bot.py.  The two resolver stages
(extract_product_id and fetch_product_details) are external calls; each can
come back empty, producing the corresponding user-facing failure. -/
inductive AddResult where
  | notPrivate : AddResult
  | usageError : AddResult
  | noProductId : AddResult
  | noDetails : AddResult
  | success : LinkRecord → AddResult
deriving DecidableEq, Repr

/-- Resolution failures of the add command, as one class (the spec calls
both user-facing resolver failures ResolutionError). -/
def AddResult.isResolutionFailure : AddResult → Bool
  | AddResult.noProductId => true
  | AddResult.noDetails => true
  | _ => false

/-- What fetch_product_details returns on success in both variants. -/
structure ProductDetails where
  title : String
  url : String
deriving DecidableEq, Repr

/-- handle_add_link of src/bot.py: private chats only; the first argument is
the URL (missing arguments is the usage failure); the resolver oracles give
the product id and the product details; on success the new record (with the
original URL standing in as affiliate link) is appended to the queue tail
and the queue is persisted. -/
def handle_add_link (chat_type : String) (args : List String)
    (product_id : Option String) (details : Option ProductDetails)
    (st : BotState) : AddResult × BotState :=
  if chat_type ≠ "private" then (AddResult.notPrivate, st)
  else
    match args with
    | [] => (AddResult.usageError, st)
    | url :: _ =>
      match product_id with
      | none => (AddResult.noProductId, st)
      | some pid =>
        match details with
        | none => (AddResult.noDetails, st)
        | some pd =>
          let new_link : LinkRecord :=
            { title := pd.title, product_id := pid, url := url,
              affiliate_link := url }
          (AddResult.success new_link, enqueue new_link st)

namespace BotApi

/-- Result of handle_add_link in src/bot_api.py, which has one more external
stage: generate_affiliate_link via the vendor API. -/
inductive AddResult where
  | notPrivate : AddResult
  | usageError : AddResult
  | noProductId : AddResult
  | noDetails : AddResult
  | noAffiliateLink : AddResult
  | success : LinkRecord → AddResult
deriving DecidableEq, Repr

/-- Resolution failures of the api variant, as one class. -/
def AddResult.isResolutionFailure : AddResult → Bool
  | AddResult.noProductId => true
  | AddResult.noDetails => true
  | AddResult.noAffiliateLink => true
  | _ => false

/-- handle_add_link of src/bot_api.py: same gating and staging as the
scraping variant plus the affiliate-link generation step; on success the
generated promotion link is stored as affiliate_link. -/
def handle_add_link (chat_type : String) (args : List String)
    (product_id : Option String) (details : Option ProductDetails)
    (affiliate : Option String) (st : BotState) : AddResult × BotState :=
  if chat_type ≠ "private" then (AddResult.notPrivate, st)
  else
    match args with
    | [] => (AddResult.usageError, st)
    | url :: _ =>
      match product_id with
      | none => (AddResult.noProductId, st)
      | some pid =>
        match details with
        | none => (AddResult.noDetails, st)
        | some pd =>
          match affiliate with
          | none => (AddResult.noAffiliateLink, st)
          | some aff =>
            let new_link : LinkRecord :=
              { title := pd.title, product_id := pid, url := url,
                affiliate_link := aff }
            (AddResult.success new_link, enqueue new_link st)

end BotApi

/-- Digit accumulator for str_to_int. -/
def parseNatCore : List Char → Nat → Option Nat
  | [], acc => some acc
  | c :: cs, acc =>
    if c.isDigit then parseNatCore cs (10 * acc + (c.toNat - 48)) else none

/-- The Python int() builtin on decimal strings, as handle_update_link uses
it on its first argument: an optional sign followed by digits; anything else
raises (modelled as none). -/
def str_to_int (s : String) : Option Int :=
  match s.toList with
  | [] => none
  | '-' :: cs =>
    match cs with
    | [] => none
    | _ :: _ => (parseNatCore cs 0).map (fun n => -(n : Int))
  | cs => (parseNatCore cs 0).map (fun n => (n : Int))

/-- Result of handle_update_link in src/bot.py. -/
inductive UpdateResult where
  | notPrivate : UpdateResult
  | usageError : UpdateResult
  | intError : UpdateResult
  | outOfRange : UpdateResult
  | updated : String → String → String → String → UpdateResult
deriving DecidableEq, Repr

/-- handle_update_link of src/bot.py: private chats only; needs five
arguments; the first parses as the 1-based position (a parse failure is
caught by the generic except branch); index = position - 1 must satisfy
0 <= index < len(queue), else the out-of-range reply with no state change;
on success the record in place gets the new title and the formatted price,
original price and discount strings, and the queue is persisted. -/
def handle_update_link (chat_type : String) (args : List String)
    (st : BotState) : UpdateResult × BotState :=
  if chat_type ≠ "private" then (UpdateResult.notPrivate, st)
  else
    match args with
    | a0 :: a1 :: a2 :: a3 :: a4 :: _ =>
      match str_to_int a0 with
      | none => (UpdateResult.intError, st)
      | some pos =>
        let index : Int := pos - 1
        if index < 0 ∨ (st.queue.length : Int) ≤ index then
          (UpdateResult.outOfRange, st)
        else
          let n := index.toNat
          let title := a1
          let price := "₪" ++ a2
          let original_price := "₪" ++ a3
          let discount := a4 ++ "%"
          let link := st.queue.getD n default
          let link2 :=
            { link with
              title := title
              price := some price
              original_price := some original_price
              discount := some discount }
          (UpdateResult.updated title price original_price discount,
           save_links { st with queue := st.queue.set n link2 })
    | _ => (UpdateResult.usageError, st)

/-- Result of handle_clear_links. -/
inductive ClearResult where
  | notPrivate : ClearResult
  | cleared : ClearResult
deriving DecidableEq, Repr

/-- handle_clear_links: private chats only; empties the queue and persists
the empty document. -/
def handle_clear_links (chat_type : String) (st : BotState) :
    ClearResult × BotState :=
  if chat_type ≠ "private" then (ClearResult.notPrivate, st)
  else (ClearResult.cleared, save_links { st with queue := [] })

/-- Driver for the FIFO law: perform a sequence of enqueue operations. -/
def enqueueAll (rs : List LinkRecord) (st : BotState) : BotState :=
  rs.foldl (fun s r => enqueue r s) st

/-- Driver for the FIFO law: perform n dequeue_front operations, collecting
the records they return (stopping at the Empty failure). -/
def dequeueN : Nat → BotState → List LinkRecord × BotState
  | 0, st => ([], st)
  | n + 1, st =>
    match dequeue_front st with
    | (none, st1) => ([], st1)
    | (some r, st1) =>
      let p := dequeueN n st1
      (r :: p.1, p.2)

/-- The records a broadcast pass consumed, in the order it consumed them
(delivered or lost in transport, either way dequeued). -/
def consumedRecords : List (Int × String × SendResult) → List LinkRecord
  | [] => []
  | (_, _, r) :: rest =>
    match r with
    | SendResult.queueEmpty => consumedRecords rest
    | SendResult.sent deal => deal :: consumedRecords rest
    | SendResult.sendFailed deal => deal :: consumedRecords rest

theorem queue_save_links (st : BotState) : (save_links st).queue = st.queue := rfl

theorem queue_enqueueAll (rs : List LinkRecord) (st : BotState) :
    (enqueueAll rs st).queue = st.queue ++ rs := by
  induction rs generalizing st with
  | nil => simp [enqueueAll]
  | cons r rest ih =>
    simp [enqueueAll] at ih ⊢
    rw [ih]
    simp [enqueue, save_links]

theorem dequeueN_take (n : Nat) (st : BotState) :
    (dequeueN n st).1 = st.queue.take n := by
  induction n generalizing st with
  | zero => simp [dequeueN]
  | succ m ih =>
    cases h : st.queue with
    | nil => simp [dequeueN, dequeue_front, h]
    | cons x xs =>
      simp [dequeueN, dequeue_front, h, ih, save_links]

theorem dequeueN_queue (n : Nat) (st : BotState) :
    ((dequeueN n st).2).queue = st.queue.drop n := by
  induction n generalizing st with
  | zero => simp [dequeueN]
  | succ m ih =>
    cases h : st.queue with
    | nil => simp [dequeueN, dequeue_front, h]
    | cons x xs =>
      simp [dequeueN, dequeue_front, h, ih, save_links]

theorem send_real_deal_state (d : Int → Bool) (cid : Int) (st : BotState) :
    (send_real_deal_to_chat d cid st).2 =
      match st.queue with
      | [] => st
      | _ :: rest => save_links { st with queue := rest } := by
  cases h : st.queue <;> cases hd : d cid <;> simp [send_real_deal_to_chat, h, hd]

theorem pass_queue (d : Int → Bool) (chats : List (Int × String)) (st : BotState) :
    ((send_real_deals_to_all d chats st).2).queue = st.queue.drop chats.length := by
  induction chats generalizing st with
  | nil => simp [send_real_deals_to_all]
  | cons hd tl ih =>
    obtain ⟨cid, ct⟩ := hd
    cases h : st.queue with
    | nil =>
      simp [send_real_deals_to_all, send_real_deal_to_chat, h, ih]
    | cons x xs =>
      cases hdel : d cid <;>
        simp [send_real_deals_to_all, send_real_deal_to_chat, h, hdel, ih, save_links]

theorem pass_length (d : Int → Bool) (chats : List (Int × String)) (st : BotState) :
    ((send_real_deals_to_all d chats st).1).length = chats.length := by
  induction chats generalizing st with
  | nil => simp [send_real_deals_to_all]
  | cons hd tl ih =>
    obtain ⟨cid, ct⟩ := hd
    simp [send_real_deals_to_all, ih]

theorem pass_chats (d : Int → Bool) (chats : List (Int × String)) (st : BotState) :
    ((send_real_deals_to_all d chats st).1).map (fun r => (r.1, r.2.1)) = chats := by
  induction chats generalizing st with
  | nil => simp [send_real_deals_to_all]
  | cons hd tl ih =>
    obtain ⟨cid, ct⟩ := hd
    simp [send_real_deals_to_all, ih]

theorem pass_consumed (d : Int → Bool) (chats : List (Int × String)) (st : BotState) :
    consumedRecords ((send_real_deals_to_all d chats st).1) =
      st.queue.take chats.length := by
  induction chats generalizing st with
  | nil => simp [send_real_deals_to_all, consumedRecords]
  | cons hd tl ih =>
    obtain ⟨cid, ct⟩ := hd
    cases h : st.queue with
    | nil =>
      simp [send_real_deals_to_all, send_real_deal_to_chat, h, consumedRecords, ih]
    | cons x xs =>
      cases hdel : d cid <;>
        simp [send_real_deals_to_all, send_real_deal_to_chat, h, hdel,
          consumedRecords, ih, save_links]

theorem pass_of_empty (d : Int → Bool) (chats : List (Int × String)) (st : BotState)
    (h : st.queue = []) :
    send_real_deals_to_all d chats st =
      (chats.map (fun c => (c.1, c.2, SendResult.queueEmpty)), st) := by
  induction chats with
  | nil => simp [send_real_deals_to_all]
  | cons hd tl ih =>
    obtain ⟨cid, ct⟩ := hd
    simp [send_real_deals_to_all, send_real_deal_to_chat, h, ih]

theorem pass_starved (d : Int → Bool) (chats : List (Int × String)) (st : BotState) :
    ((send_real_deals_to_all d chats st).1).drop st.queue.length =
      (chats.drop st.queue.length).map (fun c => (c.1, c.2, SendResult.queueEmpty)) := by
  induction chats generalizing st with
  | nil => simp [send_real_deals_to_all]
  | cons hd tl ih =>
    obtain ⟨cid, ct⟩ := hd
    cases h : st.queue with
    | nil =>
      rw [pass_of_empty d _ st h]
      simp
    | cons x xs =>
      have hx : ((send_real_deals_to_all d ((cid, ct) :: tl) st).1) =
          (cid, ct, (send_real_deal_to_chat d cid st).1) ::
            (send_real_deals_to_all d tl (send_real_deal_to_chat d cid st).2).1 := rfl
      have hq : ((send_real_deal_to_chat d cid st).2).queue = xs := by
        cases hdel : d cid <;> simp [send_real_deal_to_chat, h, hdel, save_links]
      rw [hx]
      simp only [List.length_cons, List.drop_succ_cons]
      have := ih (send_real_deal_to_chat d cid st).2
      rw [hq] at this
      exact this

/-- Concrete record used in the spec scenarios as link A. -/
def recA : LinkRecord :=
  { title := "A", product_id := "idA", url := "urlA", affiliate_link := "affA" }

/-- Concrete record used in the spec scenarios as link B. -/
def recB : LinkRecord :=
  { title := "B", product_id := "idB", url := "urlB", affiliate_link := "affB" }

/-- C1: the link queue is strictly FIFO.  Enqueue appends at the tail,
dequeue_front removes from the head, and for every sequence of enqueues
followed by dequeue_front calls the records come back in exact insertion
order: n dequeues after enqueueing rs return the first n records of rs,
dequeueing all of them returns rs itself and leaves the queue empty. -/
theorem fifo_enqueue_dequeue_order (rs : List LinkRecord) (n : Nat)
    (r : LinkRecord) (st : BotState) :
    (enqueue r st).queue = st.queue ++ [r] ∧
    (dequeue_front st).1 = st.queue.head? ∧
    (dequeueN n (enqueueAll rs initialState)).1 = rs.take n ∧
    (dequeueN rs.length (enqueueAll rs initialState)).1 = rs ∧
    ((dequeueN rs.length (enqueueAll rs initialState)).2).queue = [] := by
  refine ⟨rfl, ?_, ?_, ?_, ?_⟩
  · obtain ⟨q, dsk⟩ := st
    cases q <;> rfl
  · rw [dequeueN_take, queue_enqueueAll]
    simp [initialState]
  · rw [dequeueN_take, queue_enqueueAll]
    simp [initialState]
  · rw [dequeueN_queue, queue_enqueueAll]
    simp [initialState]

/-- C2: one broadcast pass walks the registry in order, consumes at most one
link per chat (the consumed records are exactly the first |chats| queue
entries, in order), hands every chat after queue exhaustion the queueEmpty
outcome, and leaves the queue shortened by the number of chats served; in
the concrete scenario queue [A] with registry [(1, G1), (2, G2)], A goes to
chat 1, chat 2 gets nothing and the queue ends empty. -/
theorem broadcast_pass_allocation (d : Int → Bool)
    (chats : List (Int × String)) (st : BotState) :
    ((send_real_deals_to_all d chats st).1).map (fun r => (r.1, r.2.1)) = chats ∧
    consumedRecords ((send_real_deals_to_all d chats st).1) =
      st.queue.take chats.length ∧
    ((send_real_deals_to_all d chats st).1).drop st.queue.length =
      (chats.drop st.queue.length).map (fun c => (c.1, c.2, SendResult.queueEmpty)) ∧
    ((send_real_deals_to_all d chats st).2).queue = st.queue.drop chats.length ∧
    send_real_deals_to_all (fun _ => true) [(1, "G1"), (2, "G2")]
        { queue := [recA], disk := saveLinksDoc [recA] } =
      ([(1, "G1", SendResult.sent recA), (2, "G2", SendResult.queueEmpty)],
       { queue := [], disk := saveLinksDoc [] }) :=
  ⟨pass_chats d chats st, pass_consumed d chats st, pass_starved d chats st,
   pass_queue d chats st, rfl⟩

/-- C3: a transport failure during a broadcast pass neither aborts the pass
nor requeues the link.  The post-state of one send is the popped and
persisted queue whatever the delivery oracle says, a failed delivery still
reports the head as consumed, and a full pass still visits every chat and
drops one queue entry per chat visited before exhaustion. -/
theorem transport_failure_at_most_once (d : Int → Bool) (cid : Int)
    (st : BotState) (r : LinkRecord) (rest : List LinkRecord)
    (h : st.queue = r :: rest) :
    (send_real_deal_to_chat d cid st).2 = save_links { st with queue := rest } ∧
    ((send_real_deal_to_chat d cid st).2).queue = rest ∧
    ((send_real_deal_to_chat d cid st).2).disk = saveLinksDoc rest ∧
    (d cid = false →
      (send_real_deal_to_chat d cid st).1 = SendResult.sendFailed r) ∧
    (∀ chats : List (Int × String),
      ((send_real_deals_to_all d chats st).1).length = chats.length ∧
      ((send_real_deals_to_all d chats st).2).queue = st.queue.drop chats.length) := by
  refine ⟨?_, ?_, ?_, ?_, fun chats => ⟨pass_length d chats st, pass_queue d chats st⟩⟩
  · cases hd : d cid <;> simp [send_real_deal_to_chat, h, hd]
  · cases hd : d cid <;> simp [send_real_deal_to_chat, h, hd, save_links]
  · cases hd : d cid <;> simp [send_real_deal_to_chat, h, hd, save_links]
  · intro hd
    simp [send_real_deal_to_chat, h, hd]

/-- Witness for C3 at a concrete failing transport: chat 7 never receives,
yet the head record recA is gone and the shortened queue [recB] stands. -/
theorem transport_failure_at_most_once_witness :
    ((send_real_deal_to_chat (fun _ => false) 7
        { queue := [recA, recB], disk := saveLinksDoc [recA, recB] }).2).queue =
      [recB] ∧
    (send_real_deal_to_chat (fun _ => false) 7
        { queue := [recA, recB], disk := saveLinksDoc [recA, recB] }).1 =
      SendResult.sendFailed recA :=
  ⟨(transport_failure_at_most_once (fun _ => false) 7
      { queue := [recA, recB], disk := saveLinksDoc [recA, recB] }
      recA [recB] rfl).2.1,
   (transport_failure_at_most_once (fun _ => false) 7
      { queue := [recA, recB], disk := saveLinksDoc [recA, recB] }
      recA [recB] rfl).2.2.2.1 rfl⟩

/-- C7: dequeue_front on an empty queue is the Empty failure and leaves the
whole state (queue and persisted document) untouched; on a non-empty queue
it returns the head and persists the shortened queue.  The state effect of
send_real_deal_to_chat is exactly the state effect of dequeue_front. -/
theorem dequeue_front_contract (st : BotState) (d : Int → Bool) (cid : Int) :
    (st.queue = [] → dequeue_front st = (none, st)) ∧
    (∀ r rest, st.queue = r :: rest →
      dequeue_front st = (some r, save_links { st with queue := rest }) ∧
      ((dequeue_front st).2).queue = rest ∧
      ((dequeue_front st).2).disk = saveLinksDoc rest) ∧
    (send_real_deal_to_chat d cid st).2 = (dequeue_front st).2 := by
  refine ⟨?_, ?_, ?_⟩
  · intro h
    simp [dequeue_front, h]
  · intro r rest h
    refine ⟨by simp [dequeue_front, h], ?_, ?_⟩ <;> simp [dequeue_front, h, save_links]
  · cases h : st.queue with
    | nil => simp [dequeue_front, send_real_deal_to_chat, h]
    | cons x xs =>
      cases hd : d cid <;> simp [dequeue_front, send_real_deal_to_chat, h, hd]

/-- Witness for C7: the empty state is returned unchanged, and on [A, B] the
head A comes back with [B] persisted. -/
theorem dequeue_front_contract_witness :
    dequeue_front initialState = (none, initialState) ∧
    dequeue_front { queue := [recA, recB], disk := saveLinksDoc [recA, recB] } =
      (some recA, save_links { queue := [recB], disk := saveLinksDoc [recA, recB] }) :=
  ⟨(dequeue_front_contract initialState (fun _ => true) 1).1 rfl,
   ((dequeue_front_contract { queue := [recA, recB], disk := saveLinksDoc [recA, recB] }
      (fun _ => true) 1).2.1 recA [recB] rfl).1⟩

/-- C8: the publish command from a group-type chat runs the single-chat
variant: it behaves exactly as one send to the invoking chat, bypassing the
registry, so with queue [A, B] and a working transport only A is sent and B
stays at the head. -/
theorem publish_group_single_chat (d : Int → Bool) (ct : String) (cid : Int)
    (chats : List (Int × String)) (st : BotState) (hct : ct ≠ "private") :
    handle_publish_command d ct cid chats st =
      (PublishOutcome.singleChat (send_real_deal_to_chat d cid st).1,
       (send_real_deal_to_chat d cid st).2) ∧
    (∀ a rest, st.queue = a :: rest → d cid = true →
      (handle_publish_command d ct cid chats st).1 =
        PublishOutcome.singleChat (SendResult.sent a) ∧
      ((handle_publish_command d ct cid chats st).2).queue = rest) := by
  constructor
  · simp [handle_publish_command, hct]
  · intro a rest h hd
    constructor <;> simp [handle_publish_command, hct, send_real_deal_to_chat, h, hd, save_links]

/-- Witness for C8: a group-context publish with queue [A, B] sends A alone
and leaves B queued. -/
theorem publish_group_single_chat_witness :
    (handle_publish_command (fun _ => true) "group" 5 [(1, "G1")]
        { queue := [recA, recB], disk := saveLinksDoc [recA, recB] }).1 =
      PublishOutcome.singleChat (SendResult.sent recA) ∧
    ((handle_publish_command (fun _ => true) "group" 5 [(1, "G1")]
        { queue := [recA, recB], disk := saveLinksDoc [recA, recB] }).2).queue =
      [recB] :=
  (publish_group_single_chat (fun _ => true) "group" 5 [(1, "G1")]
      { queue := [recA, recB], disk := saveLinksDoc [recA, recB] }
      (by decide)).2 recA [recB] rfl rfl

/-- C9: the add command (both variants) fails with the usage message when no
URL argument is given, fails with a resolution error and leaves the state
untouched when any resolver stage comes back empty, and only on full
resolution appends one LinkRecord at the tail of the queue and persists. -/
theorem add_link_error_paths (args : List String) (pid : Option String)
    (det : Option ProductDetails) (aff : Option String) (st : BotState) :
    handle_add_link "private" [] pid det st = (AddResult.usageError, st) ∧
    (∀ url rest, args = url :: rest → (pid = none ∨ det = none) →
      (handle_add_link "private" args pid det st).1.isResolutionFailure = true ∧
      (handle_add_link "private" args pid det st).2 = st) ∧
    (∀ url rest p pd, args = url :: rest → pid = some p → det = some pd →
      handle_add_link "private" args pid det st =
        (AddResult.success
          { title := pd.title, product_id := p, url := url, affiliate_link := url },
         enqueue
          { title := pd.title, product_id := p, url := url, affiliate_link := url }
          st) ∧
      ((handle_add_link "private" args pid det st).2).queue =
        st.queue ++
          [{ title := pd.title, product_id := p, url := url, affiliate_link := url }]) ∧
    BotApi.handle_add_link "private" [] pid det aff st =
      (BotApi.AddResult.usageError, st) ∧
    (∀ url rest, args = url :: rest → (pid = none ∨ det = none ∨ aff = none) →
      (BotApi.handle_add_link "private" args pid det aff st).1.isResolutionFailure
        = true ∧
      (BotApi.handle_add_link "private" args pid det aff st).2 = st) ∧
    (∀ url rest p pd a, args = url :: rest → pid = some p → det = some pd →
        aff = some a →
      BotApi.handle_add_link "private" args pid det aff st =
        (BotApi.AddResult.success
          { title := pd.title, product_id := p, url := url, affiliate_link := a },
         enqueue
          { title := pd.title, product_id := p, url := url, affiliate_link := a }
          st)) := by
  refine ⟨?_, ?_, ?_, ?_, ?_, ?_⟩
  · cases pid <;> cases det <;> rfl
  · intro url rest h hfail
    subst h
    rcases hfail with hp | hd
    · subst hp
      simp [handle_add_link, AddResult.isResolutionFailure]
    · subst hd
      cases pid <;> simp [handle_add_link, AddResult.isResolutionFailure]
  · intro url rest p pd h hp hd
    subst h; subst hp; subst hd
    constructor
    · rfl
    · simp [handle_add_link, enqueue, save_links]
  · cases pid <;> cases det <;> cases aff <;> rfl
  · intro url rest h hfail
    subst h
    rcases hfail with hp | hd | ha
    · subst hp
      simp [BotApi.handle_add_link, BotApi.AddResult.isResolutionFailure]
    · subst hd
      cases pid <;>
        simp [BotApi.handle_add_link, BotApi.AddResult.isResolutionFailure]
    · subst ha
      cases pid <;> cases det <;>
        simp [BotApi.handle_add_link, BotApi.AddResult.isResolutionFailure]
  · intro url rest p pd a h hp hd ha
    subst h; subst hp; subst hd; subst ha
    rfl

/-- Witness for C9: a failed resolver on a one-element command leaves the
empty state untouched, and a fully resolved add appends at the tail. -/
theorem add_link_error_paths_witness :
    ((handle_add_link "private" ["u"] none none initialState).1.isResolutionFailure
      = true ∧
     (handle_add_link "private" ["u"] none none initialState).2 = initialState) ∧
    ((handle_add_link "private" ["u"] (some "p") (some ⟨"T", "u"⟩)
        initialState).2).queue =
      [{ title := "T", product_id := "p", url := "u", affiliate_link := "u" }] :=
  ⟨(add_link_error_paths ["u"] none none none initialState).2.1 "u" [] rfl
     (Or.inl rfl),
   ((add_link_error_paths ["u"] (some "p") (some ⟨"T", "u"⟩) none
      initialState).2.2.1 "u" [] "p" ⟨"T", "u"⟩ rfl rfl rfl).2⟩

/-- C10: the add and update commands are gated to private chats exactly like
list and clear: any non-private chat type gets the permission reply and the
state (queue and persisted document) is unchanged, in both bot variants. -/
theorem private_only_gating (ct : String) (args : List String)
    (pid : Option String) (det : Option ProductDetails) (aff : Option String)
    (st : BotState) (hct : ct ≠ "private") :
    handle_add_link ct args pid det st = (AddResult.notPrivate, st) ∧
    handle_update_link ct args st = (UpdateResult.notPrivate, st) ∧
    BotApi.handle_add_link ct args pid det aff st =
      (BotApi.AddResult.notPrivate, st) := by
  refine ⟨?_, ?_, ?_⟩ <;>
    simp [handle_add_link, handle_update_link, BotApi.handle_add_link, hct]

/-- Witness for C10: a group-context add and update on a one-element state
are both rejected with the state intact. -/
theorem private_only_gating_witness :
    handle_add_link "group" ["u"] (some "p") (some ⟨"T", "u"⟩)
        { queue := [recA], disk := saveLinksDoc [recA] } =
      (AddResult.notPrivate, { queue := [recA], disk := saveLinksDoc [recA] }) ∧
    handle_update_link "group" ["1", "t", "1", "2", "50"]
        { queue := [recA], disk := saveLinksDoc [recA] } =
      (UpdateResult.notPrivate, { queue := [recA], disk := saveLinksDoc [recA] }) :=
  ⟨(private_only_gating "group" ["u"] (some "p") (some ⟨"T", "u"⟩) none
      { queue := [recA], disk := saveLinksDoc [recA] } (by decide)).1,
   (private_only_gating "group" ["1", "t", "1", "2", "50"] (some "p")
      (some ⟨"T", "u"⟩) none
      { queue := [recA], disk := saveLinksDoc [recA] } (by decide)).2.1⟩

/-- C4: update-by-position with a 1-based position outside [1, length]
answers the out-of-range reply and returns the state completely unchanged
(queue and persisted document alike). -/
theorem update_out_of_range (a0 a1 a2 a3 a4 : String) (restArgs : List String)
    (pos : Int) (st : BotState)
    (hpos : str_to_int a0 = some pos)
    (hout : pos < 1 ∨ (st.queue.length : Int) < pos) :
    handle_update_link "private" (a0 :: a1 :: a2 :: a3 :: a4 :: restArgs) st =
      (UpdateResult.outOfRange, st) := by
  simp [handle_update_link, hpos]
  omega

/-- Witness for C4: updating position 5 of the 2-element queue [A, B] fails
and the queue still holds its two original records. -/
theorem update_out_of_range_witness :
    handle_update_link "private" ["5", "t", "9", "19", "50"]
        { queue := [recA, recB], disk := saveLinksDoc [recA, recB] } =
      (UpdateResult.outOfRange,
       { queue := [recA, recB], disk := saveLinksDoc [recA, recB] }) :=
  update_out_of_range "5" "t" "9" "19" "50" [] 5
    { queue := [recA, recB], disk := saveLinksDoc [recA, recB] }
    (by decide) (by decide)

/-- C5: a successful update at a valid 1-based position rewrites only the
title, price, original_price and discount fields of the record at that
position (its product_id, url and affiliate_link survive via the record
update), keeps every other record and the queue length unchanged, and
persists exactly the updated queue. -/
theorem update_frame_effect (a0 a1 a2 a3 a4 : String) (restArgs : List String)
    (pos : Int) (st : BotState)
    (hpos : str_to_int a0 = some pos)
    (h1 : 1 ≤ pos) (h2 : pos ≤ (st.queue.length : Int)) :
    (handle_update_link "private" (a0 :: a1 :: a2 :: a3 :: a4 :: restArgs) st).1 =
      UpdateResult.updated a1 ("₪" ++ a2) ("₪" ++ a3) (a4 ++ "%") ∧
    ((handle_update_link "private" (a0 :: a1 :: a2 :: a3 :: a4 :: restArgs) st).2).queue.length =
      st.queue.length ∧
    (∀ i : Nat, i ≠ pos.toNat - 1 →
      ((handle_update_link "private" (a0 :: a1 :: a2 :: a3 :: a4 :: restArgs) st).2).queue[i]? =
        st.queue[i]?) ∧
    ((handle_update_link "private" (a0 :: a1 :: a2 :: a3 :: a4 :: restArgs) st).2).queue[pos.toNat - 1]? =
      (st.queue[pos.toNat - 1]?).map (fun r =>
        { r with
          title := a1
          price := some ("₪" ++ a2)
          original_price := some ("₪" ++ a3)
          discount := some (a4 ++ "%") }) ∧
    ((handle_update_link "private" (a0 :: a1 :: a2 :: a3 :: a4 :: restArgs) st).2).disk =
      saveLinksDoc (((handle_update_link "private" (a0 :: a1 :: a2 :: a3 :: a4 :: restArgs) st).2).queue) := by
  have hcond : ¬(pos < 1 ∨ (st.queue.length : Int) ≤ pos - 1) := by omega
  have hn : pos.toNat - 1 < st.queue.length := by omega
  refine ⟨?_, ?_, ?_, ?_, ?_⟩
  · simp [handle_update_link, hpos, hcond]
  · simp [handle_update_link, hpos, hcond, save_links]
  · intro i hi
    simp [handle_update_link, hpos, hcond, save_links,
      List.getElem?_set_ne (Ne.symm hi)]
  · simp [handle_update_link, hpos, hcond, save_links,
      List.getElem?_set_eq_of_lt _ hn, List.getElem?_eq_getElem hn,
      List.getD_eq_getElem _ _ hn]
  · simp [handle_update_link, hpos, hcond, save_links]

/-- Witness for C5: updating position 1 of [A, B] reports the new fields and
leaves the record at position 2 exactly as it was. -/
theorem update_frame_effect_witness :
    (handle_update_link "private" ["1", "T", "9", "19", "50"]
        { queue := [recA, recB], disk := saveLinksDoc [recA, recB] }).1 =
      UpdateResult.updated "T" ("₪" ++ "9") ("₪" ++ "19") ("50" ++ "%") ∧
    ((handle_update_link "private" ["1", "T", "9", "19", "50"]
        { queue := [recA, recB], disk := saveLinksDoc [recA, recB] }).2).queue[1]? =
      ({ queue := [recA, recB], disk := saveLinksDoc [recA, recB] } : BotState).queue[1]? :=
  ⟨(update_frame_effect "1" "T" "9" "19" "50" [] 1
      { queue := [recA, recB], disk := saveLinksDoc [recA, recB] }
      (by decide) (by decide) (by decide)).1,
   (update_frame_effect "1" "T" "9" "19" "50" [] 1
      { queue := [recA, recB], disk := saveLinksDoc [recA, recB] }
      (by decide) (by decide) (by decide)).2.2.1 1 (by decide)⟩

/-- Durability invariant: reloading the persisted document reconstructs the
in-memory queue. -/
def durable (st : BotState) : Prop := load_links st.disk = st.queue

theorem durable_save (st : BotState) : durable (save_links st) := by
  simp [durable, save_links, load_links_save]

/-- C6: the durability round-trip.  Decoding the document written for any
queue yields that queue back, and every mutating operation (enqueue, both
add handlers, update-by-position, dequeue-from-front, clear) preserves the
invariant that load_links of the persisted document equals the in-memory
queue. -/
theorem durability_round_trip (st : BotState) (hst : durable st)
    (r : LinkRecord) (ct : String) (args : List String)
    (pid : Option String) (det : Option ProductDetails) (aff : Option String)
    (q : List LinkRecord) :
    load_links (saveLinksDoc q) = q ∧
    durable (enqueue r st) ∧
    durable ((handle_add_link ct args pid det st).2) ∧
    durable ((BotApi.handle_add_link ct args pid det aff st).2) ∧
    durable ((handle_update_link ct args st).2) ∧
    durable ((dequeue_front st).2) ∧
    durable ((handle_clear_links ct st).2) := by
  refine ⟨load_links_save q, durable_save _, ?_, ?_, ?_, ?_, ?_⟩
  · unfold handle_add_link
    repeat' split
    all_goals first | exact hst | exact durable_save _
  · unfold BotApi.handle_add_link
    repeat' split
    all_goals first | exact hst | exact durable_save _
  · unfold handle_update_link
    repeat' first | split | dsimp only
    all_goals first | exact hst | exact durable_save _
  · unfold dequeue_front
    repeat' split
    all_goals first | exact hst | exact durable_save _
  · unfold handle_clear_links
    repeat' split
    all_goals first | exact hst | exact durable_save _

/-- Witness for C6: starting from the durable startup state, an enqueue and
a clear both leave a state whose reloaded document equals the queue. -/
theorem durability_round_trip_witness :
    durable (enqueue recA initialState) ∧
    durable ((handle_clear_links "private" initialState).2) :=
  ⟨(durability_round_trip initialState rfl recA "private" [] none none none
      []).2.1,
   (durability_round_trip initialState rfl recA "private" [] none none none
      []).2.2.2.2.2.2⟩
